import Mathlib

/-!
Shallow embedding of the call-dispatch and command-translation layer of
rmcp-xdotool (src/main.rs).  Each MCP tool handler is modelled as a pure
function from its (already deserialized) parameter struct and an injected
subprocess capability `exec : List String → SpawnResult` to the structured
result returned to the transport layer, together with the list of subprocess
invocations (argument vectors) the call issued.

Strings are modelled as Lean `String` (a list of characters).  The Rust code
only slices after ASCII prefixes, so byte indices coincide with character
indices at every slice site; `to_lowercase` is modelled as per-character ASCII
lowercasing, which agrees with Rust on the comparisons performed here (all
comparison targets are ASCII).  A Rust `panic` (the only possible one is an
out-of-bounds string slice) is modelled as `Option.none`; total Rust code is
modelled by total Lean functions.
-/

namespace RmcpXdotool

/-- Single apostrophe character as a string (U+0027), used in messages. -/
def sq : String := String.mk [Char.ofNat 39]

/-- Rust `str::starts_with` on the character level. -/
def rustStartsWith (s p : String) : Bool := p.data.isPrefixOf s.data

/-- Drop the first `n` characters of a string. -/
def strDrop (s : String) (n : Nat) : String := String.mk (s.data.drop n)

/-- Rust slice `s[i..]`: in bounds it yields the suffix, out of bounds it
panics (modelled as `none`).  All slice sites in the source use ASCII
prefixes, so the char index equals the Rust byte index there. -/
def sliceFrom (s : String) (i : Nat) : Option String :=
  if i ≤ s.data.length then some (strDrop s i) else none

/-- Value of a decimal digit run, `none` if any character is not a digit.
Mirrors the digit loop of Rust integer `FromStr`. -/
def digitsVal : List Char → Nat → Option Nat
  | [], acc => some acc
  | c :: rest, acc =>
    if c.isDigit then digitsVal rest (acc * 10 + (c.toNat - 48)) else none

/-- Parse a non-empty all-digit string to a natural number. -/
def parseNatStr : List Char → Option Nat
  | [] => none
  | cs => digitsVal cs 0

/-- Largest i32 value. -/
def i32Max : Int := 2147483647

/-- Smallest i32 value. -/
def i32Min : Int := -2147483648

/-- Rust `str::parse::<i32>()`: optional sign, then decimal digits, failing on
empty digit runs, non-digit characters, and out-of-range values. -/
def i32_parse (s : String) : Option Int :=
  match s.data with
  | '+' :: cs =>
    (parseNatStr cs).bind fun n => if (n : Int) ≤ i32Max then some (n : Int) else none
  | '-' :: cs =>
    (parseNatStr cs).bind fun n => if i32Min ≤ -(n : Int) then some (-(n : Int)) else none
  | cs =>
    (parseNatStr cs).bind fun n => if (n : Int) ≤ i32Max then some (n : Int) else none

/-- Rust `str::to_lowercase`, restricted to ASCII case mapping (the source
only compares the result against ASCII literals, where the two agree). -/
def rustToLowercase (s : String) : String := String.mk (s.data.map Char.toLower)

/-- Remove one trailing carriage return, as Rust `lines()` does per line. -/
def stripCR (l : List Char) : List Char :=
  if l.getLast? = some (Char.ofNat 13) then l.dropLast else l

/-- Split a character list at newline characters; always returns at least one
(possibly empty) segment. -/
def splitNL : List Char → List (List Char)
  | [] => [[]]
  | '\n' :: rest => [] :: splitNL rest
  | c :: rest =>
    match splitNL rest with
    | [] => [[c]]
    | h :: t => (c :: h) :: t

/-- Rust `str::lines()`: split at newlines, drop the empty segment produced by
a trailing newline (or by the empty string), strip one trailing carriage
return from each line. -/
def rustLines (s : String) : List String :=
  let segs := splitNL s.data
  let segs :=
    match segs.getLast? with
    | some [] => segs.dropLast
    | _ => segs
  segs.map (fun l => String.mk (stripCR l))

/-- Rust `str::trim` (whitespace here is ASCII whitespace, which covers the
xdotool output this is applied to). -/
def rustTrim (s : String) : String :=
  String.mk (((s.data.dropWhile Char.isWhitespace).reverse.dropWhile Char.isWhitespace).reverse)

-- === Core result types ===

/-- Captured outcome of a finished subprocess (`std::process::Output`):
exit-status success flag and the two captured streams (already decoded,
mirroring `String::from_utf8_lossy`). -/
structure Output where
  status_success : Bool
  stdout : String
  stderr : String
deriving DecidableEq

/-- Structured MCP error value (`McpError`); the source only ever constructs
`internal_error` with a message. -/
inductive McpError where
  | internal_error (message : String)
deriving DecidableEq

/-- Successful tool result: the source always wraps exactly one text content. -/
structure CallToolResult where
  text : String
deriving DecidableEq

/-- Result of trying to spawn the subprocess: either an OS error string
(`Command::output()` returned `Err`) or the captured `Output`. -/
abbrev SpawnResult := Except String Output

/-- Value a tool handler returns to the rmcp runtime:
`Result<CallToolResult, McpError>`. -/
abbrev ToolResult := Except McpError CallToolResult

/-- Error for a subprocess that could not be started (the `map_err` closure
common to every handler). -/
def launchError (e : String) : McpError :=
  McpError.internal_error ("Failed to run xdotool: " ++ e)

/-- Operational error for a subprocess that exited with non-zero status; the
message embeds the captured standard-error text. -/
def xdotoolError (stderr : String) : McpError :=
  McpError.internal_error ("xdotool error: " ++ stderr)

/-- Shared handler shape: a validation/arg-construction stage (run before any
subprocess), one subprocess invocation, and a result-shaping stage.  Returns
the handler's result together with the list of argument vectors passed to the
subprocess boundary. -/
def runTool (prep : Except McpError (List String)) (finish : Output → ToolResult)
    (exec : List String → SpawnResult) : ToolResult × List (List String) :=
  match prep with
  | Except.error e => (Except.error e, [])
  | Except.ok args =>
    match exec args with
    | Except.error e => (Except.error (launchError e), [args])
    | Except.ok out => (finish out, [args])

/-- Variant of `runTool` for handlers whose output parsing contains Rust
string slicing: the finishing stage returns `none` on a (modelled) panic. -/
def runToolP (prep : Except McpError (List String)) (finish : Output → Option ToolResult)
    (exec : List String → SpawnResult) : Option ToolResult × List (List String) :=
  match prep with
  | Except.error e => (some (Except.error e), [])
  | Except.ok args =>
    match exec args with
    | Except.error e => (some (Except.error (launchError e)), [args])
    | Except.ok out => (finish out, [args])

-- === Parameter types (field defaults mirror the serde defaults) ===

/-- Default mouse button (`default_button`). -/
def default_button : Nat := 1

/-- Default keystroke delay in milliseconds (`default_delay`). -/
def default_delay : Nat := 12

/-- Default number of scroll clicks (`default_clicks`). -/
def default_clicks : Nat := 3

/-- Default window-search type (`default_search_type`). -/
def default_search_type : String := "any"

/-- Parameters of `move_mouse` (`MoveMouseParams`); coordinates are i32. -/
structure MoveMouseParams where
  x : Int
  y : Int
deriving DecidableEq

/-- Parameters of `click` (`ClickParams`); the button is a u8 defaulting to 1. -/
structure ClickParams where
  button : Nat := default_button
deriving DecidableEq

/-- Parameters of `click_at` (`ClickAtParams`). -/
structure ClickAtParams where
  x : Int
  y : Int
  button : Nat := default_button
deriving DecidableEq

/-- Parameters of `type_text` (`TypeTextParams`); delay is a u32 defaulting
to 12. -/
structure TypeTextParams where
  text : String
  delay : Nat := default_delay
deriving DecidableEq

/-- Parameters of `key_press` (`KeyPressParams`). -/
structure KeyPressParams where
  key : String
deriving DecidableEq

/-- Parameters of `scroll` (`ScrollParams`); clicks is a u32 defaulting to 3. -/
structure ScrollParams where
  direction : String
  clicks : Nat := default_clicks
deriving DecidableEq

/-- Parameters of `search_window` (`SearchWindowParams`). -/
structure SearchWindowParams where
  query : String
  search_type : String := default_search_type
deriving DecidableEq

/-- Parameters of the window-id taking tools (`WindowIdParams`). -/
structure WindowIdParams where
  window_id : String
deriving DecidableEq

/-- Button-number to button-name mapping (`XdotoolServer::button_name`). -/
def button_name (button : Nat) : String :=
  match button with
  | 1 => "left"
  | 2 => "middle"
  | 3 => "right"
  | _ => "unknown"

-- === Tool handlers ===

/-- Argument vector built by `move_mouse`. -/
def move_mouse_args (p : MoveMouseParams) : List String :=
  ["mousemove", toString p.x, toString p.y]

/-- Result shaping of `move_mouse` after the subprocess finished. -/
def move_mouse_finish (p : MoveMouseParams) (out : Output) : ToolResult :=
  if out.status_success then
    Except.ok ⟨"Mouse moved to (" ++ toString p.x ++ ", " ++ toString p.y ++ ")"⟩
  else Except.error (xdotoolError out.stderr)

/-- The `move_mouse` tool handler. -/
def move_mouse (p : MoveMouseParams) (exec : List String → SpawnResult) :
    ToolResult × List (List String) :=
  runTool (Except.ok (move_mouse_args p)) (move_mouse_finish p) exec

/-- Argument vector built by `click`. -/
def click_args (p : ClickParams) : List String :=
  ["click", toString p.button]

/-- Result shaping of `click`. -/
def click_finish (p : ClickParams) (out : Output) : ToolResult :=
  if out.status_success then
    Except.ok ⟨"Clicked " ++ button_name p.button ++ " mouse button"⟩
  else Except.error (xdotoolError out.stderr)

/-- The `click` tool handler. -/
def click (p : ClickParams) (exec : List String → SpawnResult) :
    ToolResult × List (List String) :=
  runTool (Except.ok (click_args p)) (click_finish p) exec

/-- Argument vector built by `click_at`: one combined move-and-click
invocation. -/
def click_at_args (p : ClickAtParams) : List String :=
  ["mousemove", toString p.x, toString p.y, "click", toString p.button]

/-- Result shaping of `click_at`. -/
def click_at_finish (p : ClickAtParams) (out : Output) : ToolResult :=
  if out.status_success then
    Except.ok ⟨"Clicked " ++ button_name p.button ++ " at (" ++ toString p.x ++ ", " ++
      toString p.y ++ ")"⟩
  else Except.error (xdotoolError out.stderr)

/-- The `click_at` tool handler. -/
def click_at (p : ClickAtParams) (exec : List String → SpawnResult) :
    ToolResult × List (List String) :=
  runTool (Except.ok (click_at_args p)) (click_at_finish p) exec

/-- Argument vector built by `type_text`. -/
def type_text_args (p : TypeTextParams) : List String :=
  ["type", "--delay", toString p.delay, p.text]

/-- Result shaping of `type_text`. -/
def type_text_finish (p : TypeTextParams) (out : Output) : ToolResult :=
  if out.status_success then
    Except.ok ⟨"Typed: \"" ++ p.text ++ "\""⟩
  else Except.error (xdotoolError out.stderr)

/-- The `type_text` tool handler. -/
def type_text (p : TypeTextParams) (exec : List String → SpawnResult) :
    ToolResult × List (List String) :=
  runTool (Except.ok (type_text_args p)) (type_text_finish p) exec

/-- Argument vector built by `key_press`. -/
def key_press_args (p : KeyPressParams) : List String :=
  ["key", p.key]

/-- Result shaping of `key_press`. -/
def key_press_finish (p : KeyPressParams) (out : Output) : ToolResult :=
  if out.status_success then
    Except.ok ⟨"Pressed key: " ++ p.key⟩
  else Except.error (xdotoolError out.stderr)

/-- The `key_press` tool handler. -/
def key_press (p : KeyPressParams) (exec : List String → SpawnResult) :
    ToolResult × List (List String) :=
  runTool (Except.ok (key_press_args p)) (key_press_finish p) exec

/-- Direction-to-wheel-button mapping inside `scroll` (the `match` on the
lowercased direction). -/
def scroll_button (dlower : String) : Option String :=
  if dlower = "up" then some "4"
  else if dlower = "down" then some "5"
  else if dlower = "left" then some "6"
  else if dlower = "right" then some "7"
  else none

/-- Validation and argument construction of `scroll`: an unrecognized
direction is rejected before any subprocess runs. -/
def scroll_prepare (p : ScrollParams) : Except McpError (List String) :=
  match scroll_button (rustToLowercase p.direction) with
  | none => Except.error (McpError.internal_error "Invalid direction. Use: up, down, left, right")
  | some b => Except.ok ["click", "--repeat", toString p.clicks, b]

/-- Result shaping of `scroll`: the message echoes the original direction
string and the click count. -/
def scroll_finish (p : ScrollParams) (out : Output) : ToolResult :=
  if out.status_success then
    Except.ok ⟨"Scrolled " ++ p.direction ++ " " ++ toString p.clicks ++ " clicks"⟩
  else Except.error (xdotoolError out.stderr)

/-- The `scroll` tool handler. -/
def scroll (p : ScrollParams) (exec : List String → SpawnResult) :
    ToolResult × List (List String) :=
  runTool (scroll_prepare p) (scroll_finish p) exec

-- === KEY=VALUE output parsing (get_mouse_position / get_window_geometry) ===

/-- Loop over output lines with a per-line step that may (in the model) abort
on a panicking slice; mirrors the Rust `for line in stdout.lines()` loops. -/
def scanLines {α : Type} (f : α → String → Option α) : α → List String → Option α
  | acc, [] => some acc
  | acc, l :: ls =>
    match f acc l with
    | none => none
    | some acc2 => scanLines f acc2 ls

/-- One iteration of the `get_mouse_position` parsing loop: take the integer
after `X=` or `Y=`, defaulting a failed parse to 0. -/
def mouse_fold (acc : Int × Int) (line : String) : Option (Int × Int) :=
  if rustStartsWith line "X=" then
    (sliceFrom line 2).map fun r => ((i32_parse r).getD 0, acc.2)
  else if rustStartsWith line "Y=" then
    (sliceFrom line 2).map fun r => (acc.1, (i32_parse r).getD 0)
  else some acc

/-- Whole `get_mouse_position` stdout scan, starting from `(0, 0)`. -/
def mouse_scan_lines (ls : List String) : Option (Int × Int) :=
  scanLines mouse_fold (0, 0) ls

/-- Mouse-position parse of raw stdout. -/
def mouse_scan (stdout : String) : Option (Int × Int) :=
  mouse_scan_lines (rustLines stdout)

/-- Result shaping of `get_mouse_position`. -/
def get_mouse_position_finish (out : Output) : Option ToolResult :=
  if out.status_success then
    (mouse_scan out.stdout).map fun xy =>
      Except.ok ⟨"Mouse position: (" ++ toString xy.1 ++ ", " ++ toString xy.2 ++ ")"⟩
  else some (Except.error (xdotoolError out.stderr))

/-- The `get_mouse_position` tool handler (no parameters). -/
def get_mouse_position (exec : List String → SpawnResult) :
    Option ToolResult × List (List String) :=
  runToolP (Except.ok ["getmouselocation", "--shell"]) get_mouse_position_finish exec

/-- Result shaping of `double_click`. -/
def double_click_finish (out : Output) : ToolResult :=
  if out.status_success then
    Except.ok ⟨"Double-clicked"⟩
  else Except.error (xdotoolError out.stderr)

/-- The `double_click` tool handler (no parameters, fixed argument vector). -/
def double_click (exec : List String → SpawnResult) :
    ToolResult × List (List String) :=
  runTool (Except.ok ["click", "--repeat", "2", "1"]) double_click_finish exec

/-- Argument vector built by `search_window`: `search`, an optional flag
derived from the lowercased search type (anything unrecognized, including
`any`, adds no flag), then the query. -/
def search_window_args (p : SearchWindowParams) : List String :=
  let args := ["search"]
  let args :=
    match rustToLowercase p.search_type with
    | "name" => args ++ ["--name"]
    | "class" => args ++ ["--class"]
    | "classname" => args ++ ["--classname"]
    | _ => args
  args ++ [p.query]

/-- Result shaping of `search_window`: stdout lines are the window ids; an
empty id list and a non-zero exit status are both reported as a successful
zero-match outcome. -/
def search_window_finish (p : SearchWindowParams) (out : Output) : ToolResult :=
  if out.status_success then
    let window_ids := rustLines out.stdout
    if window_ids.isEmpty then
      Except.ok ⟨"No windows found matching " ++ sq ++ p.query ++ sq⟩
    else
      Except.ok ⟨"Found " ++ toString window_ids.length ++ " window(s):\n" ++ rustTrim out.stdout⟩
  else
    Except.ok ⟨"No windows found matching " ++ sq ++ p.query ++ sq⟩

/-- The `search_window` tool handler. -/
def search_window (p : SearchWindowParams) (exec : List String → SpawnResult) :
    ToolResult × List (List String) :=
  runTool (Except.ok (search_window_args p)) (search_window_finish p) exec

/-- Result shaping of `get_active_window`. -/
def get_active_window_finish (out : Output) : ToolResult :=
  if out.status_success then
    Except.ok ⟨"Active window ID: " ++ rustTrim out.stdout⟩
  else Except.error (xdotoolError out.stderr)

/-- The `get_active_window` tool handler (no parameters). -/
def get_active_window (exec : List String → SpawnResult) :
    ToolResult × List (List String) :=
  runTool (Except.ok ["getactivewindow"]) get_active_window_finish exec

/-- Window geometry accumulator of `get_window_geometry`; every field starts
at 0. -/
structure Geometry where
  x : Int := 0
  y : Int := 0
  width : Int := 0
  height : Int := 0
  screen : Int := 0
deriving DecidableEq

/-- One iteration of the `get_window_geometry` parsing loop: the five
recognized case-sensitive prefixes, each slicing off its prefix length and
defaulting a failed integer parse to 0. -/
def geom_fold (g : Geometry) (line : String) : Option Geometry :=
  if rustStartsWith line "X=" then
    (sliceFrom line 2).map fun r => { g with x := (i32_parse r).getD 0 }
  else if rustStartsWith line "Y=" then
    (sliceFrom line 2).map fun r => { g with y := (i32_parse r).getD 0 }
  else if rustStartsWith line "WIDTH=" then
    (sliceFrom line 6).map fun r => { g with width := (i32_parse r).getD 0 }
  else if rustStartsWith line "HEIGHT=" then
    (sliceFrom line 7).map fun r => { g with height := (i32_parse r).getD 0 }
  else if rustStartsWith line "SCREEN=" then
    (sliceFrom line 7).map fun r => { g with screen := (i32_parse r).getD 0 }
  else some g

/-- Whole `get_window_geometry` stdout scan. -/
def geom_scan_lines (ls : List String) : Option Geometry :=
  scanLines geom_fold {} ls

/-- Window-geometry parse of raw stdout. -/
def geom_scan (stdout : String) : Option Geometry :=
  geom_scan_lines (rustLines stdout)

/-- Result shaping of `get_window_geometry`. -/
def get_window_geometry_finish (p : WindowIdParams) (out : Output) : Option ToolResult :=
  if out.status_success then
    (geom_scan out.stdout).map fun g =>
      Except.ok ⟨"Window " ++ p.window_id ++ " geometry:\n  Position: (" ++ toString g.x ++
        ", " ++ toString g.y ++ ")\n  Size: " ++ toString g.width ++ "x" ++ toString g.height ++
        "\n  Screen: " ++ toString g.screen⟩
  else some (Except.error (xdotoolError out.stderr))

/-- The `get_window_geometry` tool handler. -/
def get_window_geometry (p : WindowIdParams) (exec : List String → SpawnResult) :
    Option ToolResult × List (List String) :=
  runToolP (Except.ok ["getwindowgeometry", "--shell", p.window_id])
    (get_window_geometry_finish p) exec

/-- Result shaping of `get_window_name`. -/
def get_window_name_finish (p : WindowIdParams) (out : Output) : ToolResult :=
  if out.status_success then
    Except.ok ⟨"Window " ++ p.window_id ++ " title: " ++ rustTrim out.stdout⟩
  else Except.error (xdotoolError out.stderr)

/-- The `get_window_name` tool handler. -/
def get_window_name (p : WindowIdParams) (exec : List String → SpawnResult) :
    ToolResult × List (List String) :=
  runTool (Except.ok ["getwindowname", p.window_id]) (get_window_name_finish p) exec

end RmcpXdotool

deriving instance DecidableEq for Except

namespace RmcpXdotool

-- === Helper lemmas ===

/-- A matched prefix exhibits the line as the prefix followed by a remainder. -/
theorem startsWith_data {s p : String} (h : rustStartsWith s p = true) :
    ∃ t, s.data = p.data ++ t := by
  obtain ⟨t, ht⟩ := List.isPrefixOf_iff_prefix.mp h
  exact ⟨t, ht.symm⟩

/-- A matched prefix is no longer than the line. -/
theorem startsWith_length {s p : String} (h : rustStartsWith s p = true) :
    p.data.length ≤ s.data.length :=
  (List.isPrefixOf_iff_prefix.mp h).length_le

/-- In-bounds slicing succeeds. -/
theorem slice_some {s : String} {n : Nat} (h : n ≤ s.data.length) :
    sliceFrom s n = some (strDrop s n) := by
  unfold sliceFrom
  rw [if_pos h]

/-- Lines whose data is known not to begin with a prefix do not match it. -/
theorem startsWith_false_of_data {l p : String} {t : List Char} (ht : l.data = t)
    (h : p.data.isPrefixOf t = false) : rustStartsWith l p = false := by
  unfold rustStartsWith
  rw [ht]
  exact h

/-- A line matching `Y=` does not match `X=`. -/
theorem y_not_x {l : String} (h : rustStartsWith l "Y=" = true) :
    rustStartsWith l "X=" = false := by
  obtain ⟨t, ht⟩ := startsWith_data h
  exact startsWith_false_of_data ht rfl

/-- A line matching `WIDTH=` matches neither `X=` nor `Y=`. -/
theorem width_not_xy {l : String} (h : rustStartsWith l "WIDTH=" = true) :
    rustStartsWith l "X=" = false ∧ rustStartsWith l "Y=" = false := by
  obtain ⟨t, ht⟩ := startsWith_data h
  exact ⟨startsWith_false_of_data ht rfl, startsWith_false_of_data ht rfl⟩

/-- A line matching `HEIGHT=` matches none of the prefixes checked before it. -/
theorem height_not_xyw {l : String} (h : rustStartsWith l "HEIGHT=" = true) :
    rustStartsWith l "X=" = false ∧ rustStartsWith l "Y=" = false ∧
      rustStartsWith l "WIDTH=" = false := by
  obtain ⟨t, ht⟩ := startsWith_data h
  exact ⟨startsWith_false_of_data ht rfl, startsWith_false_of_data ht rfl,
    startsWith_false_of_data ht rfl⟩

/-- A line matching `SCREEN=` matches none of the prefixes checked before it. -/
theorem screen_not_xywh {l : String} (h : rustStartsWith l "SCREEN=" = true) :
    rustStartsWith l "X=" = false ∧ rustStartsWith l "Y=" = false ∧
      rustStartsWith l "WIDTH=" = false ∧ rustStartsWith l "HEIGHT=" = false := by
  obtain ⟨t, ht⟩ := startsWith_data h
  exact ⟨startsWith_false_of_data ht rfl, startsWith_false_of_data ht rfl,
    startsWith_false_of_data ht rfl, startsWith_false_of_data ht rfl⟩

/-- Unfolding equation: empty line list. -/
theorem scanLines_nil {α : Type} (f : α → String → Option α) (acc : α) :
    scanLines f acc [] = some acc := rfl

/-- Unfolding equation: one more line. -/
theorem scanLines_cons {α : Type} (f : α → String → Option α) (acc : α) (l : String)
    (ls : List String) :
    scanLines f acc (l :: ls) =
      match f acc l with
      | none => none
      | some a => scanLines f a ls := rfl

/-- Scanning a concatenation scans the two parts in order. -/
theorem scanLines_append {α : Type} (f : α → String → Option α) (ls ls' : List String) :
    ∀ acc : α, scanLines f acc (ls ++ ls') =
      match scanLines f acc ls with
      | none => none
      | some a => scanLines f a ls' := by
  induction ls with
  | nil => intro acc; rfl
  | cons l rest ih =>
    intro acc
    rw [List.cons_append, scanLines_cons, scanLines_cons]
    cases f acc l with
    | none => rfl
    | some a => exact ih a

/-- Behaviour of the mouse loop body on an `X=` line. -/
theorem mouse_fold_eq_X {acc : Int × Int} {l : String} (h : rustStartsWith l "X=" = true) :
    mouse_fold acc l = some ((i32_parse (strDrop l 2)).getD 0, acc.2) := by
  have h2 : (2 : Nat) ≤ l.data.length := startsWith_length h
  simp [mouse_fold, h, slice_some h2]

/-- Behaviour of the mouse loop body on a `Y=` line. -/
theorem mouse_fold_eq_Y {acc : Int × Int} {l : String} (h : rustStartsWith l "Y=" = true) :
    mouse_fold acc l = some (acc.1, (i32_parse (strDrop l 2)).getD 0) := by
  have h2 : (2 : Nat) ≤ l.data.length := startsWith_length h
  simp [mouse_fold, y_not_x h, h, slice_some h2]

/-- Behaviour of the mouse loop body on an unrecognized line. -/
theorem mouse_fold_eq_other {acc : Int × Int} {l : String}
    (hx : rustStartsWith l "X=" = false) (hy : rustStartsWith l "Y=" = false) :
    mouse_fold acc l = some acc := by
  simp [mouse_fold, hx, hy]

/-- The mouse loop body never aborts. -/
theorem mouse_fold_isSome (acc : Int × Int) (l : String) :
    (mouse_fold acc l).isSome = true := by
  cases hx : rustStartsWith l "X=" with
  | true => rw [mouse_fold_eq_X hx]; rfl
  | false =>
    cases hy : rustStartsWith l "Y=" with
    | true => rw [mouse_fold_eq_Y hy]; rfl
    | false => rw [mouse_fold_eq_other hx hy]; rfl

/-- A scan whose body never aborts never aborts. -/
theorem scanLines_total {α : Type} (f : α → String → Option α)
    (hf : ∀ acc l, (f acc l).isSome = true) :
    ∀ (ls : List String) (acc : α), ∃ r, scanLines f acc ls = some r := by
  intro ls
  induction ls with
  | nil => intro acc; exact ⟨acc, rfl⟩
  | cons l rest ih =>
    intro acc
    cases hfl : f acc l with
    | none =>
      have hsome := hf acc l
      rw [hfl] at hsome
      exact absurd hsome (by simp)
    | some a =>
      obtain ⟨r, hr⟩ := ih a
      exact ⟨r, by rw [scanLines_cons, hfl]; exact hr⟩

/-- The mouse-position scan is total. -/
theorem mouse_scan_lines_total (ls : List String) (acc : Int × Int) :
    ∃ r, scanLines mouse_fold acc ls = some r :=
  scanLines_total mouse_fold mouse_fold_isSome ls acc

/-- Lines not matching `X=` leave the x component unchanged. -/
theorem scan_mouse_x_preserved :
    ∀ (ls : List String) (acc : Int × Int),
      (∀ m ∈ ls, rustStartsWith m "X=" = false) →
      ∃ y, scanLines mouse_fold acc ls = some (acc.1, y) := by
  intro ls
  induction ls with
  | nil => intro acc _; exact ⟨acc.2, rfl⟩
  | cons l rest ih =>
    intro acc h
    have hl : rustStartsWith l "X=" = false := h l (List.mem_cons_self _ _)
    have hrest : ∀ m ∈ rest, rustStartsWith m "X=" = false :=
      fun m hm => h m (List.mem_cons_of_mem _ hm)
    cases hy : rustStartsWith l "Y=" with
    | true =>
      obtain ⟨y, hy2⟩ := ih (acc.1, (i32_parse (strDrop l 2)).getD 0) hrest
      exact ⟨y, by rw [scanLines_cons, mouse_fold_eq_Y hy]; exact hy2⟩
    | false =>
      obtain ⟨y, hy2⟩ := ih acc hrest
      exact ⟨y, by rw [scanLines_cons, mouse_fold_eq_other hl hy]; exact hy2⟩

/-- Lines not matching `Y=` leave the y component unchanged. -/
theorem scan_mouse_y_preserved :
    ∀ (ls : List String) (acc : Int × Int),
      (∀ m ∈ ls, rustStartsWith m "Y=" = false) →
      ∃ x, scanLines mouse_fold acc ls = some (x, acc.2) := by
  intro ls
  induction ls with
  | nil => intro acc _; exact ⟨acc.1, rfl⟩
  | cons l rest ih =>
    intro acc h
    have hl : rustStartsWith l "Y=" = false := h l (List.mem_cons_self _ _)
    have hrest : ∀ m ∈ rest, rustStartsWith m "Y=" = false :=
      fun m hm => h m (List.mem_cons_of_mem _ hm)
    cases hx : rustStartsWith l "X=" with
    | true =>
      obtain ⟨x, hx2⟩ := ih ((i32_parse (strDrop l 2)).getD 0, acc.2) hrest
      exact ⟨x, by rw [scanLines_cons, mouse_fold_eq_X hx]; exact hx2⟩
    | false =>
      obtain ⟨x, hx2⟩ := ih acc hrest
      exact ⟨x, by rw [scanLines_cons, mouse_fold_eq_other hx hl]; exact hx2⟩

/-- Behaviour of the geometry loop body on an `X=` line. -/
theorem geom_fold_eq_X {g : Geometry} {l : String} (h : rustStartsWith l "X=" = true) :
    geom_fold g l = some { g with x := (i32_parse (strDrop l 2)).getD 0 } := by
  have h2 : (2 : Nat) ≤ l.data.length := startsWith_length h
  simp [geom_fold, h, slice_some h2]

/-- Behaviour of the geometry loop body on a `Y=` line. -/
theorem geom_fold_eq_Y {g : Geometry} {l : String} (h : rustStartsWith l "Y=" = true) :
    geom_fold g l = some { g with y := (i32_parse (strDrop l 2)).getD 0 } := by
  have h2 : (2 : Nat) ≤ l.data.length := startsWith_length h
  simp [geom_fold, y_not_x h, h, slice_some h2]

/-- Behaviour of the geometry loop body on a `WIDTH=` line. -/
theorem geom_fold_eq_W {g : Geometry} {l : String} (h : rustStartsWith l "WIDTH=" = true) :
    geom_fold g l = some { g with width := (i32_parse (strDrop l 6)).getD 0 } := by
  have h2 : (6 : Nat) ≤ l.data.length := startsWith_length h
  obtain ⟨hx, hy⟩ := width_not_xy h
  simp [geom_fold, hx, hy, h, slice_some h2]

/-- Behaviour of the geometry loop body on a `HEIGHT=` line. -/
theorem geom_fold_eq_H {g : Geometry} {l : String} (h : rustStartsWith l "HEIGHT=" = true) :
    geom_fold g l = some { g with height := (i32_parse (strDrop l 7)).getD 0 } := by
  have h2 : (7 : Nat) ≤ l.data.length := startsWith_length h
  obtain ⟨hx, hy, hw⟩ := height_not_xyw h
  simp [geom_fold, hx, hy, hw, h, slice_some h2]

/-- Behaviour of the geometry loop body on a `SCREEN=` line. -/
theorem geom_fold_eq_S {g : Geometry} {l : String} (h : rustStartsWith l "SCREEN=" = true) :
    geom_fold g l = some { g with screen := (i32_parse (strDrop l 7)).getD 0 } := by
  have h2 : (7 : Nat) ≤ l.data.length := startsWith_length h
  obtain ⟨hx, hy, hw, hh⟩ := screen_not_xywh h
  simp [geom_fold, hx, hy, hw, hh, h, slice_some h2]

/-- Behaviour of the geometry loop body on an unrecognized line. -/
theorem geom_fold_eq_other {g : Geometry} {l : String}
    (hx : rustStartsWith l "X=" = false) (hy : rustStartsWith l "Y=" = false)
    (hw : rustStartsWith l "WIDTH=" = false) (hh : rustStartsWith l "HEIGHT=" = false)
    (hs : rustStartsWith l "SCREEN=" = false) :
    geom_fold g l = some g := by
  simp [geom_fold, hx, hy, hw, hh, hs]

/-- The geometry loop body never aborts, and each unmatched field of the
accumulator passes through unchanged. -/
theorem geom_fold_preserve (g : Geometry) (l : String) :
    ∃ g2, geom_fold g l = some g2 ∧
      (rustStartsWith l "X=" = false → g2.x = g.x) ∧
      (rustStartsWith l "Y=" = false → g2.y = g.y) ∧
      (rustStartsWith l "WIDTH=" = false → g2.width = g.width) ∧
      (rustStartsWith l "HEIGHT=" = false → g2.height = g.height) ∧
      (rustStartsWith l "SCREEN=" = false → g2.screen = g.screen) := by
  cases hx : rustStartsWith l "X=" with
  | true =>
    refine ⟨_, geom_fold_eq_X hx, ?_, fun _ => rfl, fun _ => rfl, fun _ => rfl, fun _ => rfl⟩
    intro hc; exact Bool.noConfusion hc
  | false =>
  cases hy : rustStartsWith l "Y=" with
  | true =>
    refine ⟨_, geom_fold_eq_Y hy, fun _ => rfl, ?_, fun _ => rfl, fun _ => rfl, fun _ => rfl⟩
    intro hc; exact Bool.noConfusion hc
  | false =>
  cases hw : rustStartsWith l "WIDTH=" with
  | true =>
    refine ⟨_, geom_fold_eq_W hw, fun _ => rfl, fun _ => rfl, ?_, fun _ => rfl, fun _ => rfl⟩
    intro hc; exact Bool.noConfusion hc
  | false =>
  cases hh : rustStartsWith l "HEIGHT=" with
  | true =>
    refine ⟨_, geom_fold_eq_H hh, fun _ => rfl, fun _ => rfl, fun _ => rfl, ?_, fun _ => rfl⟩
    intro hc; exact Bool.noConfusion hc
  | false =>
  cases hs : rustStartsWith l "SCREEN=" with
  | true =>
    refine ⟨_, geom_fold_eq_S hs, fun _ => rfl, fun _ => rfl, fun _ => rfl, fun _ => rfl, ?_⟩
    intro hc; exact Bool.noConfusion hc
  | false =>
    exact ⟨g, geom_fold_eq_other hx hy hw hh hs, fun _ => rfl, fun _ => rfl, fun _ => rfl,
      fun _ => rfl, fun _ => rfl⟩

/-- The geometry loop body never aborts. -/
theorem geom_fold_isSome (g : Geometry) (l : String) : (geom_fold g l).isSome = true := by
  obtain ⟨g2, hg2, _⟩ := geom_fold_preserve g l
  rw [hg2]; rfl

/-- The window-geometry scan is total. -/
theorem geom_scan_lines_total (ls : List String) (g : Geometry) :
    ∃ r, scanLines geom_fold g ls = some r :=
  scanLines_total geom_fold geom_fold_isSome ls g

/-- Lines not matching a given field prefix leave that field of the geometry
accumulator unchanged across a whole scan. -/
theorem scan_geom_preserved (proj : Geometry → Int) (pfx : String)
    (hstep : ∀ g l, rustStartsWith l pfx = false →
      ∃ g2, geom_fold g l = some g2 ∧ proj g2 = proj g) :
    ∀ (ls : List String) (g : Geometry), (∀ m ∈ ls, rustStartsWith m pfx = false) →
      ∃ g2, scanLines geom_fold g ls = some g2 ∧ proj g2 = proj g := by
  intro ls
  induction ls with
  | nil => intro g _; exact ⟨g, rfl, rfl⟩
  | cons l rest ih =>
    intro g h
    obtain ⟨g1, hg1, hp1⟩ := hstep g l (h l (List.mem_cons_self _ _))
    obtain ⟨g2, hg2, hp2⟩ := ih g1 (fun m hm => h m (List.mem_cons_of_mem _ hm))
    refine ⟨g2, ?_, hp2.trans hp1⟩
    rw [scanLines_cons, hg1]
    exact hg2

/-- Evaluation of the shared handler shape when the subprocess ran. -/
theorem runTool_ok {args : List String} {finish : Output → ToolResult}
    {exec : List String → SpawnResult} {out : Output} (hexec : exec args = Except.ok out) :
    runTool (Except.ok args) finish exec = (finish out, [args]) := by
  have h0 : runTool (Except.ok args) finish exec =
      match exec args with
      | Except.error e => (Except.error (launchError e), [args])
      | Except.ok out => (finish out, [args]) := rfl
  rw [h0, hexec]

/-- Evaluation of the shared handler shape when the subprocess could not be
spawned. -/
theorem runTool_spawn_err {args : List String} {finish : Output → ToolResult}
    {exec : List String → SpawnResult} {e : String} (hexec : exec args = Except.error e) :
    runTool (Except.ok args) finish exec = (Except.error (launchError e), [args]) := by
  have h0 : runTool (Except.ok args) finish exec =
      match exec args with
      | Except.error e => (Except.error (launchError e), [args])
      | Except.ok out => (finish out, [args]) := rfl
  rw [h0, hexec]

/-- Evaluation of the shared handler shape on a validation failure. -/
theorem runTool_prep_err {e : McpError} {finish : Output → ToolResult}
    {exec : List String → SpawnResult} :
    runTool (Except.error e) finish exec = (Except.error e, []) := rfl

/-- A handler whose validation passed records exactly its one invocation. -/
theorem runTool_trace {args : List String} {finish : Output → ToolResult}
    {exec : List String → SpawnResult} :
    (runTool (Except.ok args) finish exec).2 = [args] := by
  have h0 : runTool (Except.ok args) finish exec =
      match exec args with
      | Except.error e => (Except.error (launchError e), [args])
      | Except.ok out => (finish out, [args]) := rfl
  rw [h0]
  cases h : exec args <;> rfl

/-- Evaluation of the panic-aware handler shape when the subprocess ran. -/
theorem runToolP_ok {args : List String} {finish : Output → Option ToolResult}
    {exec : List String → SpawnResult} {out : Output} (hexec : exec args = Except.ok out) :
    runToolP (Except.ok args) finish exec = (finish out, [args]) := by
  have h0 : runToolP (Except.ok args) finish exec =
      match exec args with
      | Except.error e => (some (Except.error (launchError e)), [args])
      | Except.ok out => (finish out, [args]) := rfl
  rw [h0, hexec]

/-- Evaluation of the panic-aware handler shape when the subprocess could not
be spawned. -/
theorem runToolP_spawn_err {args : List String} {finish : Output → Option ToolResult}
    {exec : List String → SpawnResult} {e : String} (hexec : exec args = Except.error e) :
    runToolP (Except.ok args) finish exec = (some (Except.error (launchError e)), [args]) := by
  have h0 : runToolP (Except.ok args) finish exec =
      match exec args with
      | Except.error e => (some (Except.error (launchError e)), [args])
      | Except.ok out => (finish out, [args]) := rfl
  rw [h0, hexec]

/-- A panic-aware handler whose validation passed records exactly its one
invocation. -/
theorem runToolP_trace {args : List String} {finish : Output → Option ToolResult}
    {exec : List String → SpawnResult} :
    (runToolP (Except.ok args) finish exec).2 = [args] := by
  have h0 : runToolP (Except.ok args) finish exec =
      match exec args with
      | Except.error e => (some (Except.error (launchError e)), [args])
      | Except.ok out => (finish out, [args]) := rfl
  rw [h0]
  cases h : exec args <;> rfl

-- === Subprocess stubs for concrete instantiations ===

/-- Subprocess stub: exits successfully with the given stdout. -/
def execOk (stdout : String) : List String → SpawnResult :=
  fun _ => Except.ok ⟨true, stdout, ""⟩

/-- Subprocess stub: exits with non-zero status and the given stderr. -/
def execFail (stderr : String) : List String → SpawnResult :=
  fun _ => Except.ok ⟨false, "", stderr⟩

/-- Subprocess stub: cannot be spawned. -/
def execNoSpawn (e : String) : List String → SpawnResult :=
  fun _ => Except.error e

-- === Claims ===

/-- C1: for every operation, a validation failure (an unrecognized scroll
direction) and an operational failure (subprocess exited non-zero) are both
returned to the caller as a normal structured result of the call — an
`Except.error` carrying an `McpError` value, never a panic or transport-level
fault — and even the two handlers whose output parsing slices strings always
produce a response. -/
theorem C1_failures_are_structured_results :
    (∀ (p : ScrollParams) (exec : List String → SpawnResult),
      scroll_button (rustToLowercase p.direction) = none →
      (scroll p exec).1 =
        Except.error (McpError.internal_error "Invalid direction. Use: up, down, left, right")) ∧
    (∀ (p : MoveMouseParams) (exec : List String → SpawnResult) (out : Output),
      exec (move_mouse_args p) = Except.ok out → out.status_success = false →
      (move_mouse p exec).1 = Except.error (xdotoolError out.stderr)) ∧
    (∀ exec : List String → SpawnResult, (get_mouse_position exec).1.isSome = true) ∧
    (∀ (p : WindowIdParams) (exec : List String → SpawnResult),
      (get_window_geometry p exec).1.isSome = true) := by
  refine ⟨?_, ?_, ?_, ?_⟩
  · intro p exec h
    unfold scroll scroll_prepare
    rw [h]
    rfl
  · intro p exec out hexec hs
    unfold move_mouse
    rw [runTool_ok hexec]
    show move_mouse_finish p out = _
    unfold move_mouse_finish
    rw [hs]
    rfl
  · intro exec
    cases hexec : exec ["getmouselocation", "--shell"] with
    | error e =>
      unfold get_mouse_position
      rw [runToolP_spawn_err hexec]
      rfl
    | ok out =>
      unfold get_mouse_position
      rw [runToolP_ok hexec]
      show (get_mouse_position_finish out).isSome = true
      unfold get_mouse_position_finish
      cases hs : out.status_success with
      | false => rfl
      | true =>
        rw [if_pos rfl]
        obtain ⟨r, hr⟩ := mouse_scan_lines_total (rustLines out.stdout) (0, 0)
        unfold mouse_scan mouse_scan_lines
        rw [hr]
        rfl
  · intro p exec
    cases hexec : exec ["getwindowgeometry", "--shell", p.window_id] with
    | error e =>
      unfold get_window_geometry
      rw [runToolP_spawn_err hexec]
      rfl
    | ok out =>
      unfold get_window_geometry
      rw [runToolP_ok hexec]
      show (get_window_geometry_finish p out).isSome = true
      unfold get_window_geometry_finish
      cases hs : out.status_success with
      | false => rfl
      | true =>
        rw [if_pos rfl]
        obtain ⟨r, hr⟩ := geom_scan_lines_total (rustLines out.stdout) {}
        unfold geom_scan geom_scan_lines
        rw [hr]
        rfl

/-- C1 witness: a scroll call with an invalid direction and a move call whose
subprocess exits non-zero both return structured error results. -/
theorem C1_witness :
    (scroll { direction := "diagonal", clicks := 3 } (execOk "")).1 =
      Except.error (McpError.internal_error "Invalid direction. Use: up, down, left, right") ∧
    (move_mouse { x := 1, y := 2 } (execFail "boom")).1 =
      Except.error (xdotoolError "boom") :=
  ⟨C1_failures_are_structured_results.1 { direction := "diagonal", clicks := 3 } (execOk "")
      (by decide),
   C1_failures_are_structured_results.2.1 { x := 1, y := 2 } (execFail "boom")
      ⟨false, "", "boom"⟩ rfl rfl⟩

/-- C2: a search_window call whose subprocess exits non-zero, or whose stdout
is empty, returns a successful zero-match outcome (never an error result); a
call whose subprocess succeeds with a non-empty list of output lines reports
exactly that many window ids. -/
theorem C2_search_window_outcomes :
    (∀ (p : SearchWindowParams) (exec : List String → SpawnResult) (out : Output),
      exec (search_window_args p) = Except.ok out → out.status_success = false →
      (search_window p exec).1 =
        Except.ok ⟨"No windows found matching " ++ sq ++ p.query ++ sq⟩) ∧
    (∀ (p : SearchWindowParams) (exec : List String → SpawnResult) (out : Output),
      exec (search_window_args p) = Except.ok out → out.status_success = true →
      out.stdout = "" →
      (search_window p exec).1 =
        Except.ok ⟨"No windows found matching " ++ sq ++ p.query ++ sq⟩) ∧
    (∀ (p : SearchWindowParams) (exec : List String → SpawnResult) (out : Output),
      exec (search_window_args p) = Except.ok out → out.status_success = true →
      rustLines out.stdout ≠ [] →
      (search_window p exec).1 =
        Except.ok ⟨"Found " ++ toString (rustLines out.stdout).length ++ " window(s):\n" ++
          rustTrim out.stdout⟩) := by
  refine ⟨?_, ?_, ?_⟩
  · intro p exec out hexec hs
    unfold search_window
    rw [runTool_ok hexec]
    show search_window_finish p out = _
    unfold search_window_finish
    rw [hs]
    rfl
  · intro p exec out hexec hs hstd
    unfold search_window
    rw [runTool_ok hexec]
    show search_window_finish p out = _
    unfold search_window_finish
    rw [hs, hstd]
    rfl
  · intro p exec out hexec hs hne
    unfold search_window
    rw [runTool_ok hexec]
    show search_window_finish p out = _
    unfold search_window_finish
    rw [hs]
    cases hl : rustLines out.stdout with
    | nil => exact absurd hl hne
    | cons a as => rfl

/-- C2 witness: non-zero exit and empty stdout both give the zero-match
success message; three output lines give a three-id report. -/
theorem C2_witness :
    (search_window { query := "firefox", search_type := "any" } (execFail "no match")).1 =
      Except.ok ⟨"No windows found matching " ++ sq ++ "firefox" ++ sq⟩ ∧
    (search_window { query := "firefox", search_type := "any" } (execOk "")).1 =
      Except.ok ⟨"No windows found matching " ++ sq ++ "firefox" ++ sq⟩ ∧
    (search_window { query := "firefox", search_type := "any" }
        (execOk "111\n222\n333\n")).1 =
      Except.ok ⟨"Found " ++ toString (3 : Nat) ++ " window(s):\n" ++ "111\n222\n333"⟩ :=
  ⟨C2_search_window_outcomes.1 { query := "firefox", search_type := "any" }
      (execFail "no match") ⟨false, "", "no match"⟩ rfl rfl,
   C2_search_window_outcomes.2.1 { query := "firefox", search_type := "any" }
      (execOk "") ⟨true, "", ""⟩ rfl rfl rfl,
   by
    have h := C2_search_window_outcomes.2.2 { query := "firefox", search_type := "any" }
      (execOk "111\n222\n333\n") ⟨true, "111\n222\n333\n", ""⟩ rfl rfl (by decide)
    rw [h]
    decide⟩

/-- C3: scroll maps a direction string equal, case-insensitively, to
up/down/left/right deterministically to wheel button 4/5/6/7 and invokes the
subprocess with `click --repeat <clicks> <button>` where clicks defaults to 3;
the scenario scroll(direction="UP", clicks unset) yields exactly the args
`["click","--repeat","3","4"]` and on success the text "Scrolled UP 3 clicks";
any other direction string fails as a validation error with no subprocess
invoked. -/
theorem C3_scroll_direction_mapping :
    (∀ (p : ScrollParams) (exec : List String → SpawnResult),
      rustToLowercase p.direction = "up" →
      (scroll p exec).2 = [["click", "--repeat", toString p.clicks, "4"]]) ∧
    (∀ (p : ScrollParams) (exec : List String → SpawnResult),
      rustToLowercase p.direction = "down" →
      (scroll p exec).2 = [["click", "--repeat", toString p.clicks, "5"]]) ∧
    (∀ (p : ScrollParams) (exec : List String → SpawnResult),
      rustToLowercase p.direction = "left" →
      (scroll p exec).2 = [["click", "--repeat", toString p.clicks, "6"]]) ∧
    (∀ (p : ScrollParams) (exec : List String → SpawnResult),
      rustToLowercase p.direction = "right" →
      (scroll p exec).2 = [["click", "--repeat", toString p.clicks, "7"]]) ∧
    (∀ (p : ScrollParams) (exec : List String → SpawnResult),
      rustToLowercase p.direction ≠ "up" → rustToLowercase p.direction ≠ "down" →
      rustToLowercase p.direction ≠ "left" → rustToLowercase p.direction ≠ "right" →
      scroll p exec =
        (Except.error (McpError.internal_error "Invalid direction. Use: up, down, left, right"),
          [])) ∧
    (∀ (exec : List String → SpawnResult) (out : Output),
      exec ["click", "--repeat", "3", "4"] = Except.ok out → out.status_success = true →
      scroll { direction := "UP" } exec =
        (Except.ok ⟨"Scrolled UP 3 clicks"⟩, [["click", "--repeat", "3", "4"]])) := by
  have hprep : ∀ (p : ScrollParams) (b : String),
      scroll_button (rustToLowercase p.direction) = some b →
      scroll_prepare p = Except.ok ["click", "--repeat", toString p.clicks, b] := by
    intro p b hb
    unfold scroll_prepare
    rw [hb]
  refine ⟨?_, ?_, ?_, ?_, ?_, ?_⟩
  · intro p exec h
    unfold scroll
    rw [hprep p "4" (by unfold scroll_button; rw [h]; rfl)]
    exact runTool_trace
  · intro p exec h
    unfold scroll
    rw [hprep p "5" (by unfold scroll_button; rw [h]; rfl)]
    exact runTool_trace
  · intro p exec h
    unfold scroll
    rw [hprep p "6" (by unfold scroll_button; rw [h]; rfl)]
    exact runTool_trace
  · intro p exec h
    unfold scroll
    rw [hprep p "7" (by unfold scroll_button; rw [h]; rfl)]
    exact runTool_trace
  · intro p exec h1 h2 h3 h4
    have hb : scroll_button (rustToLowercase p.direction) = none := by
      unfold scroll_button
      rw [if_neg h1, if_neg h2, if_neg h3, if_neg h4]
    unfold scroll scroll_prepare
    rw [hb]
    rfl
  · intro exec out hexec hs
    have hp : scroll_prepare { direction := "UP" } =
        Except.ok ["click", "--repeat", "3", "4"] := by decide
    unfold scroll
    rw [hp, runTool_ok hexec]
    show (scroll_finish _ out, _) = _
    unfold scroll_finish
    rw [hs]
    rfl

/-- C3 witness: the UP scenario with a succeeding subprocess, and a rejected
direction string. -/
theorem C3_witness :
    scroll { direction := "UP" } (execOk "") =
      (Except.ok ⟨"Scrolled UP 3 clicks"⟩, [["click", "--repeat", "3", "4"]]) ∧
    scroll { direction := "sideways", clicks := 2 } (execOk "") =
      (Except.error (McpError.internal_error "Invalid direction. Use: up, down, left, right"),
        []) :=
  ⟨C3_scroll_direction_mapping.2.2.2.2.2 (execOk "") ⟨true, "", ""⟩ rfl rfl,
   C3_scroll_direction_mapping.2.2.2.2.1 { direction := "sideways", clicks := 2 } (execOk "")
      (by decide) (by decide) (by decide) (by decide)⟩

/-- C4: button_name maps 1 to "left", 2 to "middle", 3 to "right" and every
other value to "unknown"; click and click_at never reject a button value (they
always issue their single invocation, and on success the value only affects
the echoed name). -/
theorem C4_button_name_total :
    button_name 1 = "left" ∧ button_name 2 = "middle" ∧ button_name 3 = "right" ∧
    (∀ b : Nat, b ≠ 1 → b ≠ 2 → b ≠ 3 → button_name b = "unknown") ∧
    (∀ (p : ClickParams) (exec : List String → SpawnResult),
      (click p exec).2 = [click_args p]) ∧
    (∀ (p : ClickAtParams) (exec : List String → SpawnResult),
      (click_at p exec).2 = [click_at_args p]) ∧
    (∀ (p : ClickParams) (exec : List String → SpawnResult) (out : Output),
      exec (click_args p) = Except.ok out → out.status_success = true →
      (click p exec).1 = Except.ok ⟨"Clicked " ++ button_name p.button ++ " mouse button"⟩) ∧
    (∀ (p : ClickAtParams) (exec : List String → SpawnResult) (out : Output),
      exec (click_at_args p) = Except.ok out → out.status_success = true →
      (click_at p exec).1 =
        Except.ok ⟨"Clicked " ++ button_name p.button ++ " at (" ++ toString p.x ++ ", " ++
          toString p.y ++ ")"⟩) := by
  refine ⟨rfl, rfl, rfl, ?_, ?_, ?_, ?_, ?_⟩
  · intro b h1 h2 h3
    match b with
    | 0 => rfl
    | 1 => exact absurd rfl h1
    | 2 => exact absurd rfl h2
    | 3 => exact absurd rfl h3
    | n + 4 => rfl
  · intro p exec
    unfold click
    exact runTool_trace
  · intro p exec
    unfold click_at
    exact runTool_trace
  · intro p exec out hexec hs
    unfold click
    rw [runTool_ok hexec]
    show click_finish p out = _
    unfold click_finish
    rw [hs]
    rfl
  · intro p exec out hexec hs
    unfold click_at
    rw [runTool_ok hexec]
    show click_at_finish p out = _
    unfold click_at_finish
    rw [hs]
    rfl

/-- C4 witness: an out-of-range button is echoed as unknown rather than
rejected. -/
theorem C4_witness :
    button_name 9 = "unknown" ∧
    (click { button := 9 } (execOk "")).1 =
      Except.ok ⟨"Clicked " ++ button_name 9 ++ " mouse button"⟩ :=
  ⟨C4_button_name_total.2.2.2.1 9 (by decide) (by decide) (by decide),
   C4_button_name_total.2.2.2.2.2.2.1 { button := 9 } (execOk "") ⟨true, "", ""⟩ rfl rfl⟩

/-- C5: the get_mouse_position parser scans every stdout line, takes the
integer after the case-sensitive prefixes `X=` and `Y=`, and uses 0 for any
missing or unparsable value without surfacing a parse error: on output
"X=10\nY=20\n" the result text is "Mouse position: (10, 20)", on output
missing `Y=` it is "Mouse position: (10, 0)", on an unparsable `X=` value the
x coordinate is 0, a lowercase `x=` prefix is not recognized, and the parse is
total on every stdout string. -/
theorem C5_mouse_position_parsing :
    (∀ (exec : List String → SpawnResult) (se : String),
      exec ["getmouselocation", "--shell"] = Except.ok ⟨true, "X=10\nY=20\n", se⟩ →
      (get_mouse_position exec).1 = some (Except.ok ⟨"Mouse position: (10, 20)"⟩)) ∧
    (∀ (exec : List String → SpawnResult) (se : String),
      exec ["getmouselocation", "--shell"] = Except.ok ⟨true, "X=10\n", se⟩ →
      (get_mouse_position exec).1 = some (Except.ok ⟨"Mouse position: (10, 0)"⟩)) ∧
    (∀ (exec : List String → SpawnResult) (se : String),
      exec ["getmouselocation", "--shell"] = Except.ok ⟨true, "X=abc\nY=20\n", se⟩ →
      (get_mouse_position exec).1 = some (Except.ok ⟨"Mouse position: (0, 20)"⟩)) ∧
    (∀ (exec : List String → SpawnResult) (se : String),
      exec ["getmouselocation", "--shell"] = Except.ok ⟨true, "x=10\nY=20\n", se⟩ →
      (get_mouse_position exec).1 = some (Except.ok ⟨"Mouse position: (0, 20)"⟩)) ∧
    (∀ stdout : String, (mouse_scan stdout).isSome = true) := by
  refine ⟨?_, ?_, ?_, ?_, ?_⟩
  · intro exec se hexec
    unfold get_mouse_position
    rw [runToolP_ok hexec]
    rfl
  · intro exec se hexec
    unfold get_mouse_position
    rw [runToolP_ok hexec]
    rfl
  · intro exec se hexec
    unfold get_mouse_position
    rw [runToolP_ok hexec]
    rfl
  · intro exec se hexec
    unfold get_mouse_position
    rw [runToolP_ok hexec]
    rfl
  · intro stdout
    obtain ⟨r, hr⟩ := mouse_scan_lines_total (rustLines stdout) (0, 0)
    unfold mouse_scan mouse_scan_lines
    rw [hr]
    rfl

/-- C5 witness: the two scenario outputs from the spec evaluated concretely. -/
theorem C5_witness :
    (get_mouse_position (execOk "X=10\nY=20\n")).1 =
      some (Except.ok ⟨"Mouse position: (10, 20)"⟩) ∧
    (get_mouse_position (execOk "X=10\n")).1 =
      some (Except.ok ⟨"Mouse position: (10, 0)"⟩) :=
  ⟨C5_mouse_position_parsing.1 (execOk "X=10\nY=20\n") "" rfl,
   C5_mouse_position_parsing.2.1 (execOk "X=10\n") "" rfl⟩

/-- Any button value other than 1, 2 or 3 is named unknown. -/
theorem button_name_of_ne (b : Nat) (h1 : b ≠ 1) (h2 : b ≠ 2) (h3 : b ≠ 3) :
    button_name b = "unknown" :=
  match b, h1, h2, h3 with
  | 0, _, _, _ => rfl
  | 1, h1, _, _ => absurd rfl h1
  | 2, _, h2, _ => absurd rfl h2
  | 3, _, _, h3 => absurd rfl h3
  | _ + 4, _, _, _ => rfl

/-- C6: for click and click_at the button field is optional with default 1,
and every numeric value supplied for it is forwarded verbatim to the
subprocess without any range check; an out-of-range value appears only as the
name "unknown" in the success message, never as a validation error. -/
theorem C6_button_forwarded_unchecked :
    default_button = 1 ∧
    (∀ p : ClickParams, click_args p = ["click", toString p.button]) ∧
    (∀ p : ClickAtParams, click_at_args p =
      ["mousemove", toString p.x, toString p.y, "click", toString p.button]) ∧
    click_args {} = ["click", "1"] ∧
    (∀ x y : Int, click_at_args { x := x, y := y } =
      ["mousemove", toString x, toString y, "click", "1"]) ∧
    (∀ (p : ClickParams) (exec : List String → SpawnResult),
      (click p exec).2 = [click_args p]) ∧
    (∀ (p : ClickParams) (exec : List String → SpawnResult) (out : Output),
      exec (click_args p) = Except.ok out → out.status_success = true →
      p.button ≠ 1 → p.button ≠ 2 → p.button ≠ 3 →
      (click p exec).1 = Except.ok ⟨"Clicked unknown mouse button"⟩) := by
  refine ⟨rfl, fun p => rfl, fun p => rfl, rfl, ?_, ?_, ?_⟩
  · intro x y
    show ["mousemove", toString x, toString y, "click", toString default_button] = _
    rw [show toString default_button = "1" from by decide]
  · intro p exec
    unfold click
    exact runTool_trace
  · intro p exec out hexec hs h1 h2 h3
    unfold click
    rw [runTool_ok hexec]
    show click_finish p out = _
    unfold click_finish
    rw [hs, button_name_of_ne p.button h1 h2 h3]
    rfl

/-- C6 witness: an out-of-range button value is forwarded verbatim and only
echoed as unknown on success. -/
theorem C6_witness :
    click_args { button := 77 } = ["click", "77"] ∧
    (click { button := 77 } (execOk "")).1 = Except.ok ⟨"Clicked unknown mouse button"⟩ :=
  ⟨C6_button_forwarded_unchecked.2.1 { button := 77 },
   C6_button_forwarded_unchecked.2.2.2.2.2.2 { button := 77 } (execOk "") ⟨true, "", ""⟩
      rfl rfl (by decide) (by decide) (by decide)⟩

/-- C7: every operation issues exactly one synchronous subprocess invocation
per call (and at most one on scroll's validation-error path, which issues
none), never retrying or pipelining; click_at(50,60,button=3) issues the
single combined invocation `mousemove 50 60 click 3` and on success returns
"Clicked right at (50, 60)". -/
theorem C7_single_invocation :
    (∀ (p : MoveMouseParams) (exec : List String → SpawnResult),
      (move_mouse p exec).2.length = 1) ∧
    (∀ (p : ClickParams) (exec : List String → SpawnResult),
      (click p exec).2.length = 1) ∧
    (∀ (p : ClickAtParams) (exec : List String → SpawnResult),
      (click_at p exec).2.length = 1) ∧
    (∀ (p : TypeTextParams) (exec : List String → SpawnResult),
      (type_text p exec).2.length = 1) ∧
    (∀ (p : KeyPressParams) (exec : List String → SpawnResult),
      (key_press p exec).2.length = 1) ∧
    (∀ (p : ScrollParams) (exec : List String → SpawnResult),
      (scroll p exec).2.length ≤ 1) ∧
    (∀ exec : List String → SpawnResult, (get_mouse_position exec).2.length = 1) ∧
    (∀ exec : List String → SpawnResult, (double_click exec).2.length = 1) ∧
    (∀ (p : SearchWindowParams) (exec : List String → SpawnResult),
      (search_window p exec).2.length = 1) ∧
    (∀ exec : List String → SpawnResult, (get_active_window exec).2.length = 1) ∧
    (∀ (p : WindowIdParams) (exec : List String → SpawnResult),
      (get_window_geometry p exec).2.length = 1) ∧
    (∀ (p : WindowIdParams) (exec : List String → SpawnResult),
      (get_window_name p exec).2.length = 1) ∧
    (∀ exec : List String → SpawnResult,
      (click_at { x := 50, y := 60, button := 3 } exec).2 =
        [["mousemove", "50", "60", "click", "3"]]) ∧
    (∀ (exec : List String → SpawnResult) (out : Output),
      exec ["mousemove", "50", "60", "click", "3"] = Except.ok out →
      out.status_success = true →
      (click_at { x := 50, y := 60, button := 3 } exec).1 =
        Except.ok ⟨"Clicked right at (50, 60)"⟩) := by
  refine ⟨?_, ?_, ?_, ?_, ?_, ?_, ?_, ?_, ?_, ?_, ?_, ?_, ?_, ?_⟩
  · intro p exec; unfold move_mouse; rw [runTool_trace]; rfl
  · intro p exec; unfold click; rw [runTool_trace]; rfl
  · intro p exec; unfold click_at; rw [runTool_trace]; rfl
  · intro p exec; unfold type_text; rw [runTool_trace]; rfl
  · intro p exec; unfold key_press; rw [runTool_trace]; rfl
  · intro p exec
    unfold scroll
    cases hp : scroll_prepare p with
    | error e => exact Nat.zero_le 1
    | ok args => rw [runTool_trace]; exact Nat.le_refl 1
  · intro exec; unfold get_mouse_position; rw [runToolP_trace]; rfl
  · intro exec; unfold double_click; rw [runTool_trace]; rfl
  · intro p exec; unfold search_window; rw [runTool_trace]; rfl
  · intro exec; unfold get_active_window; rw [runTool_trace]; rfl
  · intro p exec; unfold get_window_geometry; rw [runToolP_trace]; rfl
  · intro p exec; unfold get_window_name; rw [runTool_trace]; rfl
  · intro exec
    unfold click_at
    rw [runTool_trace]
    rfl
  · intro exec out hexec hs
    have hargs : click_at_args { x := 50, y := 60, button := 3 } =
        ["mousemove", "50", "60", "click", "3"] := by decide
    unfold click_at
    rw [hargs, runTool_ok hexec]
    show click_at_finish _ out = _
    unfold click_at_finish
    rw [hs]
    rfl

/-- C7 witness: the move-and-click scenario issues one combined invocation and
returns the combined success text. -/
theorem C7_witness :
    (click_at { x := 50, y := 60, button := 3 } (execOk "")).2 =
      [["mousemove", "50", "60", "click", "3"]] ∧
    (click_at { x := 50, y := 60, button := 3 } (execOk "")).1 =
      Except.ok ⟨"Clicked right at (50, 60)"⟩ :=
  ⟨C7_single_invocation.2.2.2.2.2.2.2.2.2.2.2.2.1 (execOk ""),
   C7_single_invocation.2.2.2.2.2.2.2.2.2.2.2.2.2 (execOk "") ⟨true, "", ""⟩ rfl rfl⟩

/-- The launch-error message always begins with the letter F. -/
theorem launch_msg_head (e : String) :
    ("Failed to run xdotool: " ++ e).data.head? = some 'F' := rfl

/-- The operational-error message always begins with the letter x. -/
theorem xdotool_msg_head (s : String) :
    ("xdotool error: " ++ s).data.head? = some 'x' := rfl

/-- A launch error and an operational error are never the same value. -/
theorem launch_ne_xdotool (e s : String) : launchError e ≠ xdotoolError s := by
  intro h
  have h2 : ("Failed to run xdotool: " ++ e) = ("xdotool error: " ++ s) := by
    injection h
  have h3 : ("Failed to run xdotool: " ++ e).data.head? =
      ("xdotool error: " ++ s).data.head? := by rw [h2]
  rw [launch_msg_head, xdotool_msg_head] at h3
  exact absurd h3 (by decide)

/-- C8: a subprocess launch failure yields an error result distinct from the
operational error produced by a non-zero exit status; the operational error's
message embeds the utility's raw standard-error text; and for search_window
(only) a non-zero exit is remapped to success while a launch failure is still
an error. -/
theorem C8_launch_distinct_from_operational :
    (∀ (p : MoveMouseParams) (exec : List String → SpawnResult) (e : String),
      exec (move_mouse_args p) = Except.error e →
      (move_mouse p exec).1 = Except.error (launchError e)) ∧
    (∀ (p : MoveMouseParams) (exec : List String → SpawnResult) (out : Output),
      exec (move_mouse_args p) = Except.ok out → out.status_success = false →
      (move_mouse p exec).1 = Except.error (xdotoolError out.stderr)) ∧
    (∀ e s : String, launchError e ≠ xdotoolError s) ∧
    (∀ (p : SearchWindowParams) (exec : List String → SpawnResult) (e : String),
      exec (search_window_args p) = Except.error e →
      (search_window p exec).1 = Except.error (launchError e)) ∧
    (∀ (p : SearchWindowParams) (exec : List String → SpawnResult) (out : Output),
      exec (search_window_args p) = Except.ok out → out.status_success = false →
      (search_window p exec).1 =
        Except.ok ⟨"No windows found matching " ++ sq ++ p.query ++ sq⟩) := by
  refine ⟨?_, ?_, launch_ne_xdotool, ?_, ?_⟩
  · intro p exec e hexec
    unfold move_mouse
    rw [runTool_spawn_err hexec]
  · intro p exec out hexec hs
    unfold move_mouse
    rw [runTool_ok hexec]
    show move_mouse_finish p out = _
    unfold move_mouse_finish
    rw [hs]
    rfl
  · intro p exec e hexec
    unfold search_window
    rw [runTool_spawn_err hexec]
  · intro p exec out hexec hs
    unfold search_window
    rw [runTool_ok hexec]
    show search_window_finish p out = _
    unfold search_window_finish
    rw [hs]
    rfl

/-- C8 witness: a spawn failure and a non-zero exit produce the two distinct
error shapes, and search_window remaps non-zero exit to success. -/
theorem C8_witness :
    (move_mouse { x := 0, y := 0 } (execNoSpawn "No such file")).1 =
      Except.error (launchError "No such file") ∧
    (move_mouse { x := 0, y := 0 } (execFail "oops")).1 =
      Except.error (xdotoolError "oops") ∧
    launchError "oops" ≠ xdotoolError "oops" ∧
    (search_window { query := "q", search_type := "name" } (execFail "bad query")).1 =
      Except.ok ⟨"No windows found matching " ++ sq ++ "q" ++ sq⟩ :=
  ⟨C8_launch_distinct_from_operational.1 { x := 0, y := 0 } (execNoSpawn "No such file")
      "No such file" rfl,
   C8_launch_distinct_from_operational.2.1 { x := 0, y := 0 } (execFail "oops")
      ⟨false, "", "oops"⟩ rfl rfl,
   C8_launch_distinct_from_operational.2.2.1 "oops" "oops",
   C8_launch_distinct_from_operational.2.2.2.2 { query := "q", search_type := "name" }
      (execFail "bad query") ⟨false, "", "bad query"⟩ rfl rfl⟩

/-- C9: the KEY=VALUE output parsers of get_mouse_position and
get_window_geometry are total: the slice after each recognized prefix is in
bounds because it is guarded by the matching prefix check, failed integer
parses are absorbed into the default 0, and on every stdout string the parse
(and hence the result shaping of both handlers, on every subprocess output)
never aborts. -/
theorem C9_parsers_total :
    (∀ line p : String, rustStartsWith line p = true →
      (sliceFrom line p.data.length).isSome = true) ∧
    (∀ stdout : String, (mouse_scan stdout).isSome = true) ∧
    (∀ stdout : String, (geom_scan stdout).isSome = true) ∧
    (∀ out : Output, (get_mouse_position_finish out).isSome = true) ∧
    (∀ (p : WindowIdParams) (out : Output),
      (get_window_geometry_finish p out).isSome = true) := by
  have hm : ∀ stdout : String, (mouse_scan stdout).isSome = true := by
    intro stdout
    obtain ⟨r, hr⟩ := mouse_scan_lines_total (rustLines stdout) (0, 0)
    unfold mouse_scan mouse_scan_lines
    rw [hr]
    rfl
  have hg : ∀ stdout : String, (geom_scan stdout).isSome = true := by
    intro stdout
    obtain ⟨r, hr⟩ := geom_scan_lines_total (rustLines stdout) {}
    unfold geom_scan geom_scan_lines
    rw [hr]
    rfl
  refine ⟨?_, hm, hg, ?_, ?_⟩
  · intro line p h
    rw [slice_some (startsWith_length h)]
    rfl
  · intro out
    unfold get_mouse_position_finish
    cases hs : out.status_success with
    | false => rfl
    | true =>
      rw [if_pos rfl]
      obtain ⟨r, hr⟩ := mouse_scan_lines_total (rustLines out.stdout) (0, 0)
      unfold mouse_scan mouse_scan_lines
      rw [hr]
      rfl
  · intro p out
    unfold get_window_geometry_finish
    cases hs : out.status_success with
    | false => rfl
    | true =>
      rw [if_pos rfl]
      obtain ⟨r, hr⟩ := geom_scan_lines_total (rustLines out.stdout) {}
      unfold geom_scan geom_scan_lines
      rw [hr]
      rfl

/-- C9 witness: a guarded slice on a concrete line, and both result shapers on
a prefix-only, non-numeric output. -/
theorem C9_witness :
    (sliceFrom "X=" 2).isSome = true ∧
    (get_mouse_position_finish ⟨true, "X=\nY=zz\n", ""⟩).isSome = true ∧
    (get_window_geometry_finish ⟨"0x1"⟩ ⟨true, "WIDTH=\nHEIGHT=zz\n", ""⟩).isSome = true :=
  ⟨C9_parsers_total.1 "X=" "X=" (by decide),
   C9_parsers_total.2.2.2.1 ⟨true, "X=\nY=zz\n", ""⟩,
   C9_parsers_total.2.2.2.2 ⟨"0x1"⟩ ⟨true, "WIDTH=\nHEIGHT=zz\n", ""⟩⟩

/-- C10: in the KEY=VALUE parsing of get_mouse_position and
get_window_geometry, when several lines match the same recognized prefix the
reported value comes from the last matching line: for each recognized prefix,
whatever precedes the last matching line, the scanned field equals the value
parsed from that line. -/
theorem C10_last_match_wins :
    (∀ (ls ls₂ : List String) (l : String),
      rustStartsWith l "X=" = true → (∀ m ∈ ls₂, rustStartsWith m "X=" = false) →
      ∃ y, mouse_scan_lines (ls ++ l :: ls₂) =
        some ((i32_parse (strDrop l 2)).getD 0, y)) ∧
    (∀ (ls ls₂ : List String) (l : String),
      rustStartsWith l "Y=" = true → (∀ m ∈ ls₂, rustStartsWith m "Y=" = false) →
      ∃ x, mouse_scan_lines (ls ++ l :: ls₂) =
        some (x, (i32_parse (strDrop l 2)).getD 0)) ∧
    (∀ (ls ls₂ : List String) (l : String),
      rustStartsWith l "X=" = true → (∀ m ∈ ls₂, rustStartsWith m "X=" = false) →
      ∃ g, geom_scan_lines (ls ++ l :: ls₂) = some g ∧
        g.x = (i32_parse (strDrop l 2)).getD 0) ∧
    (∀ (ls ls₂ : List String) (l : String),
      rustStartsWith l "Y=" = true → (∀ m ∈ ls₂, rustStartsWith m "Y=" = false) →
      ∃ g, geom_scan_lines (ls ++ l :: ls₂) = some g ∧
        g.y = (i32_parse (strDrop l 2)).getD 0) ∧
    (∀ (ls ls₂ : List String) (l : String),
      rustStartsWith l "WIDTH=" = true → (∀ m ∈ ls₂, rustStartsWith m "WIDTH=" = false) →
      ∃ g, geom_scan_lines (ls ++ l :: ls₂) = some g ∧
        g.width = (i32_parse (strDrop l 6)).getD 0) ∧
    (∀ (ls ls₂ : List String) (l : String),
      rustStartsWith l "HEIGHT=" = true → (∀ m ∈ ls₂, rustStartsWith m "HEIGHT=" = false) →
      ∃ g, geom_scan_lines (ls ++ l :: ls₂) = some g ∧
        g.height = (i32_parse (strDrop l 7)).getD 0) ∧
    (∀ (ls ls₂ : List String) (l : String),
      rustStartsWith l "SCREEN=" = true → (∀ m ∈ ls₂, rustStartsWith m "SCREEN=" = false) →
      ∃ g, geom_scan_lines (ls ++ l :: ls₂) = some g ∧
        g.screen = (i32_parse (strDrop l 7)).getD 0) := by
  have hstepX : ∀ (g : Geometry) (l : String), rustStartsWith l "X=" = false →
      ∃ g2, geom_fold g l = some g2 ∧ g2.x = g.x := by
    intro g l h
    obtain ⟨g2, he, px, _, _, _, _⟩ := geom_fold_preserve g l
    exact ⟨g2, he, px h⟩
  have hstepY : ∀ (g : Geometry) (l : String), rustStartsWith l "Y=" = false →
      ∃ g2, geom_fold g l = some g2 ∧ g2.y = g.y := by
    intro g l h
    obtain ⟨g2, he, _, py, _, _, _⟩ := geom_fold_preserve g l
    exact ⟨g2, he, py h⟩
  have hstepW : ∀ (g : Geometry) (l : String), rustStartsWith l "WIDTH=" = false →
      ∃ g2, geom_fold g l = some g2 ∧ g2.width = g.width := by
    intro g l h
    obtain ⟨g2, he, _, _, pw, _, _⟩ := geom_fold_preserve g l
    exact ⟨g2, he, pw h⟩
  have hstepH : ∀ (g : Geometry) (l : String), rustStartsWith l "HEIGHT=" = false →
      ∃ g2, geom_fold g l = some g2 ∧ g2.height = g.height := by
    intro g l h
    obtain ⟨g2, he, _, _, _, ph, _⟩ := geom_fold_preserve g l
    exact ⟨g2, he, ph h⟩
  have hstepS : ∀ (g : Geometry) (l : String), rustStartsWith l "SCREEN=" = false →
      ∃ g2, geom_fold g l = some g2 ∧ g2.screen = g.screen := by
    intro g l h
    obtain ⟨g2, he, _, _, _, _, ps⟩ := geom_fold_preserve g l
    exact ⟨g2, he, ps h⟩
  refine ⟨?_, ?_, ?_, ?_, ?_, ?_, ?_⟩
  · intro ls ls₂ l hl hrest
    obtain ⟨acc1, hacc1⟩ := mouse_scan_lines_total ls (0, 0)
    obtain ⟨y, hy⟩ :=
      scan_mouse_x_preserved ls₂ ((i32_parse (strDrop l 2)).getD 0, acc1.2) hrest
    refine ⟨y, ?_⟩
    unfold mouse_scan_lines
    rw [scanLines_append, hacc1]
    show scanLines mouse_fold acc1 (l :: ls₂) = _
    rw [scanLines_cons, mouse_fold_eq_X hl]
    exact hy
  · intro ls ls₂ l hl hrest
    obtain ⟨acc1, hacc1⟩ := mouse_scan_lines_total ls (0, 0)
    obtain ⟨x, hx⟩ :=
      scan_mouse_y_preserved ls₂ (acc1.1, (i32_parse (strDrop l 2)).getD 0) hrest
    refine ⟨x, ?_⟩
    unfold mouse_scan_lines
    rw [scanLines_append, hacc1]
    show scanLines mouse_fold acc1 (l :: ls₂) = _
    rw [scanLines_cons, mouse_fold_eq_Y hl]
    exact hx
  · intro ls ls₂ l hl hrest
    obtain ⟨g1, hg1⟩ := geom_scan_lines_total ls {}
    obtain ⟨g2, hg2, hp⟩ := scan_geom_preserved Geometry.x "X=" hstepX ls₂
      { g1 with x := (i32_parse (strDrop l 2)).getD 0 } hrest
    refine ⟨g2, ?_, hp⟩
    unfold geom_scan_lines
    rw [scanLines_append, hg1]
    show scanLines geom_fold g1 (l :: ls₂) = _
    rw [scanLines_cons, geom_fold_eq_X hl]
    exact hg2
  · intro ls ls₂ l hl hrest
    obtain ⟨g1, hg1⟩ := geom_scan_lines_total ls {}
    obtain ⟨g2, hg2, hp⟩ := scan_geom_preserved Geometry.y "Y=" hstepY ls₂
      { g1 with y := (i32_parse (strDrop l 2)).getD 0 } hrest
    refine ⟨g2, ?_, hp⟩
    unfold geom_scan_lines
    rw [scanLines_append, hg1]
    show scanLines geom_fold g1 (l :: ls₂) = _
    rw [scanLines_cons, geom_fold_eq_Y hl]
    exact hg2
  · intro ls ls₂ l hl hrest
    obtain ⟨g1, hg1⟩ := geom_scan_lines_total ls {}
    obtain ⟨g2, hg2, hp⟩ := scan_geom_preserved Geometry.width "WIDTH=" hstepW ls₂
      { g1 with width := (i32_parse (strDrop l 6)).getD 0 } hrest
    refine ⟨g2, ?_, hp⟩
    unfold geom_scan_lines
    rw [scanLines_append, hg1]
    show scanLines geom_fold g1 (l :: ls₂) = _
    rw [scanLines_cons, geom_fold_eq_W hl]
    exact hg2
  · intro ls ls₂ l hl hrest
    obtain ⟨g1, hg1⟩ := geom_scan_lines_total ls {}
    obtain ⟨g2, hg2, hp⟩ := scan_geom_preserved Geometry.height "HEIGHT=" hstepH ls₂
      { g1 with height := (i32_parse (strDrop l 7)).getD 0 } hrest
    refine ⟨g2, ?_, hp⟩
    unfold geom_scan_lines
    rw [scanLines_append, hg1]
    show scanLines geom_fold g1 (l :: ls₂) = _
    rw [scanLines_cons, geom_fold_eq_H hl]
    exact hg2
  · intro ls ls₂ l hl hrest
    obtain ⟨g1, hg1⟩ := geom_scan_lines_total ls {}
    obtain ⟨g2, hg2, hp⟩ := scan_geom_preserved Geometry.screen "SCREEN=" hstepS ls₂
      { g1 with screen := (i32_parse (strDrop l 7)).getD 0 } hrest
    refine ⟨g2, ?_, hp⟩
    unfold geom_scan_lines
    rw [scanLines_append, hg1]
    show scanLines geom_fold g1 (l :: ls₂) = _
    rw [scanLines_cons, geom_fold_eq_S hl]
    exact hg2

/-- C10 witness: with two `X=` lines the reported x value comes from the
second, even with a later non-`X=` line following it. -/
theorem C10_witness :
    ∃ y, mouse_scan_lines ["X=1", "X=2", "Y=9"] = some (2, y) := by
  have h := C10_last_match_wins.1 ["X=1"] ["Y=9"] "X=2" (by decide)
    (by intro m hm; rw [List.mem_singleton] at hm; subst hm; decide)
  exact h

end RmcpXdotool
